import Mathlib

/-!
Verification of the blog application in `src/main.py` against its
natural-language specification.

The embedding models the Identity Store (`users` table), the Content Store
(`blog_posts` table), the session state kept by the login manager, and the
route handlers of `main.py`.  Relational rows become Lean structures, the
database becomes explicit lists of rows, and each Flask view becomes a pure
function from the request data and the database to a response together with
the successor database.  The storage engine's declared constraints
(`unique=True` on `blog_posts.title`, the foreign key with
`cascade="all, delete"`) are modelled as part of the store operations,
since the code relies on them.
-/

namespace Blog

/-- A row of the `users` table (`main.py` lines 40-50): primary key `id`,
`username`, unique `email`, and the stored password hash (`password`). -/
structure User where
  id : Nat
  username : String
  email : String
  password : String
deriving Repr, DecidableEq

/-- A row of the `blog_posts` table (`main.py` lines 53-65): primary key `id`,
non-null foreign key `user_id` to `users.id`, unique `title`, `subtitle`,
`date`, `body`, `img_url`. -/
structure BlogPost where
  id : Nat
  user_id : Nat
  title : String
  subtitle : String
  date : String
  body : String
  img_url : String
deriving Repr, DecidableEq

/-- The persisted state: the Identity Store and the Content Store. -/
structure DB where
  users : List User
  posts : List BlogPost
deriving Repr, DecidableEq

/-- A Python value as it occurs in the comparison `current_user != 1` of
`admin_or_author` (line 77): either a loaded `User` object or an `int`.
Python object equality between a `User` instance (default identity-based
equality) and an `int` literal is always `False`; two loaded rows of the
same identity map session compare equal exactly when they are the same row. -/
inductive PyVal where
  | obj (u : User)
  | int (n : Int)
deriving Repr, DecidableEq

/-- Python `==` on the values above: `int == int` is numeric equality,
`obj == obj` is row identity, and an object never equals an `int`. -/
def pyEq : PyVal → PyVal → Bool
  | PyVal.obj u, PyVal.obj v => u == v
  | PyVal.int m, PyVal.int n => m == n
  | _, _ => false

/-- `db.session.get(User, user_id)` as used by `load_user` (lines 68-70). -/
def load_user (db : DB) (uid : Nat) : Option User :=
  db.users.find? (fun u => u.id == uid)

/-- `flask_login`'s `current_user`: the user loaded from the session's
stored user id, or `none` for an anonymous (unauthenticated) caller. -/
def current_user (db : DB) (session : Option Nat) : Option User :=
  session.bind (load_user db)

/-- `db.get_or_404(BlogPost, post_id)` resolution step (without the 404):
look the post up by primary key. -/
def getPost (db : DB) (pid : Nat) : Option BlogPost :=
  db.posts.find? (fun p => p.id == pid)

/-- `select(User).where(User.email == email)` with `scalar_one_or_none`. -/
def findUserByEmail (db : DB) (email : String) : Option User :=
  db.users.find? (fun u => u.email == email)

/-- The request-scoped failures of the spec's error taxonomy (section 7). -/
inductive AppError where
  | NotFound
  | Forbidden
  | DuplicateEmail
  | UnknownEmail
  | WrongPassword
  | DuplicateTitle
deriving Repr, DecidableEq

/-- The `admin_or_author` decorator (lines 73-81).  It first resolves the
post with `db.get_or_404` (line 76), then aborts 403 when
`not current_user.is_authenticated or (current_user != 1 and
current_user.id != post.user_id)` (line 77); otherwise it admits the
request and the wrapped view runs with the same post and user. -/
def admin_or_author (db : DB) (cu : Option User) (pid : Nat) :
    Except AppError (BlogPost × User) :=
  match getPost db pid with
  | none => Except.error AppError.NotFound
  | some post =>
    match cu with
    | none => Except.error AppError.Forbidden
    | some u =>
      if !pyEq (PyVal.obj u) (PyVal.int 1) && u.id != post.user_id then
        Except.error AppError.Forbidden
      else
        Except.ok (post, u)

/-- A rendered HTTP outcome of a request: a redirect to a named endpoint
(`redirect(url_for(...))`), a rendered template, an `abort(code)` error, or
an unhandled exception surfacing as HTTP 500 (`serverError`). -/
inductive RouteResponse where
  | redirect (endpoint : String)
  | render (template : String)
  | httpError (code : Nat)
  | serverError
deriving Repr, DecidableEq

/-- Outcome of the `login` / `register` views: the response, the session's
authenticated-identity slot after the request, and the flashed message. -/
structure AuthResult where
  response : RouteResponse
  newSession : Option Nat
  flash : Option String
deriving Repr, DecidableEq

/-- The `login` view (lines 96-111).  `check` is
`werkzeug.security.check_password_hash`, the trusted black-box primitive,
applied to the stored hash and the submitted plaintext; `formValid` is
`form.validate_on_submit()`.  On an unknown email the view flashes and
redirects to registration (lines 109-110); on a failed hash check it
flashes and re-renders the login form (line 107); on success it calls
`login_user(user)` (line 104), writing the user id into the session. -/
def login (db : DB) (check : String → String → Bool) (session : Option Nat)
    (formValid : Bool) (email password : String) : AuthResult :=
  if formValid then
    match findUserByEmail db email with
    | some user =>
      if check user.password password then
        { response := RouteResponse.redirect "get_all_posts",
          newSession := some user.id, flash := none }
      else
        { response := RouteResponse.render "login.html",
          newSession := session, flash := some "Incorrect Password!" }
    | none =>
      { response := RouteResponse.redirect "register",
        newSession := session, flash := some "Email doesn\x27t exist !" }
  else
    { response := RouteResponse.render "login.html",
      newSession := session, flash := none }

/-- Primary-key autoincrement for the `users` table. -/
def freshUserId (db : DB) : Nat :=
  db.users.foldl (fun m u => max m u.id) 0 + 1

/-- Primary-key autoincrement for the `blog_posts` table. -/
def freshPostId (db : DB) : Nat :=
  db.posts.foldl (fun m p => max m p.id) 0 + 1

/-- The `register` view (lines 114-134).  `hash` is
`generate_password_hash` (trusted black box).  When a user with the
submitted email already exists the view flashes and redirects to login
(lines 120-122) without touching the store; otherwise it stores a new
`User` whose `password` field is the hash of the submitted password
(never the plaintext) and logs the new user in (lines 123-133). -/
def register (db : DB) (hash : String → String) (session : Option Nat)
    (formValid : Bool) (username email password : String) :
    AuthResult × DB :=
  if formValid then
    match findUserByEmail db email with
    | some _ =>
      ({ response := RouteResponse.redirect "login",
         newSession := session, flash := some "Already Logged in" }, db)
    | none =>
      let u : User :=
        { id := freshUserId db, username := username, email := email,
          password := hash password }
      ({ response := RouteResponse.redirect "get_all_posts",
         newSession := some u.id, flash := none },
       { db with users := db.users ++ [u] })
  else
    ({ response := RouteResponse.render "register.html",
       newSession := session, flash := none }, db)

/-- The `show_post` view (lines 143-146): `db.get_or_404` then render. -/
def show_post (db : DB) (pid : Nat) : RouteResponse :=
  match getPost db pid with
  | none => RouteResponse.httpError 404
  | some _ => RouteResponse.render "post.html"

/-- The content fields of `CreatePostForm` used by the create/edit views. -/
structure PostForm where
  title : String
  subtitle : String
  body : String
  img_url : String
deriving Repr, DecidableEq

/-- The data a request carries into the `/new-post` handler: the session's
authenticated-identity slot, whether `form.validate_on_submit()` holds,
the form contents, and today's formatted date string. -/
structure Request where
  session : Option Nat
  formValid : Bool
  form : PostForm
  today : String

/-- A Flask view function in this model. -/
abbrev Handler := Request → DB → RouteResponse × DB

/-- `INSERT` of a post through `db.session.commit()`: the storage engine
enforces the `unique=True` constraint on `blog_posts.title` (line 60), so a
commit inserting a colliding title fails (IntegrityError) and writes
nothing; this store-level uniqueness violation is the spec's
`DuplicateTitle`. -/
def insertPost (db : DB) (p : BlogPost) : Except AppError DB :=
  if db.posts.any (fun q => q.title == p.title) then
    Except.error AppError.DuplicateTitle
  else
    Except.ok { db with posts := db.posts ++ [p] }

/-- `UPDATE` of a post through `db.session.commit()`: the same `unique=True`
constraint on `title` rejects an update that makes this post's title collide
with a different row's title; otherwise the row with the same id is
replaced. -/
def updatePost (db : DB) (p : BlogPost) : Except AppError DB :=
  if db.posts.any (fun q => q.id != p.id && q.title == p.title) then
    Except.error AppError.DuplicateTitle
  else
    Except.ok { db with posts := db.posts.map (fun q => if q.id == p.id then p else q) }

/-- The body of the `add_new_post` view (lines 151-165), exactly as written:
there is no authentication check inside the body.  On a valid submission it
builds a `BlogPost` with `author=current_user` and today's date and commits.
When the caller is anonymous, `current_user` is flask_login's
`AnonymousUserMixin`, which is not a mapped `User` row: the commit raises
and the request ends in an unhandled-exception 500 with nothing persisted.
A commit violating the unique-title constraint likewise raises
(IntegrityError, uncaught) and persists nothing. -/
def add_new_post : Handler :=
  fun req db =>
    if req.formValid then
      match current_user db req.session with
      | some u =>
        let p : BlogPost :=
          { id := freshPostId db, user_id := u.id, title := req.form.title,
            subtitle := req.form.subtitle, date := req.today,
            body := req.form.body, img_url := req.form.img_url }
        match insertPost db p with
        | Except.ok db2 => (RouteResponse.redirect "get_all_posts", db2)
        | Except.error _ => (RouteResponse.serverError, db)
      | none => (RouteResponse.serverError, db)
    else
      (RouteResponse.render "make-post.html", db)

/-- flask_login's `login_required` decorator: an unauthenticated caller is
sent to the configured login view (`login_manager.login_view = 'login'`,
line 36) before the wrapped view runs. -/
def login_required (f : Handler) : Handler :=
  fun req db =>
    match current_user db req.session with
    | none => (RouteResponse.redirect "login", db)
    | some _ => f req db

/-- The application's URL map: each registered rule with its view. -/
abbrev RouteTable := List (String × Handler)

/-- The `app.route(rule)` decorator: it registers the decorated function in
the URL map and returns that same function unchanged. -/
def app_route (tbl : RouteTable) (rule : String) (f : Handler) :
    RouteTable × Handler :=
  (tbl ++ [(rule, f)], f)

/-- The decoration of `add_new_post` as written at lines 149-151:

    @login_required
    @app.route("/new-post", methods=["GET", "POST"])
    def add_new_post(): ...

Decorators apply bottom-up, so `app.route` runs first and registers the bare
`add_new_post`; `login_required` then wraps only the returned function,
rebinding the module-level name to a wrapper that is never in the URL map. -/
def newPostRegistration (tbl : RouteTable) : RouteTable × Handler :=
  let r := app_route tbl "/new-post" add_new_post
  (r.1, login_required r.2)

/-- URL-map lookup used to dispatch a request to the registered view. -/
def dispatch (tbl : RouteTable) (rule : String) : Option Handler :=
  (tbl.find? (fun e => e.1 == rule)).map (fun e => e.2)

/-- The view registered for `/edit-post/<post_id>` (lines 168-188).  Of its
three decorators, `@app.route` (line 169) registers
`admin_or_author(edit_post)` — the `@admin_or_author` below it (line 170)
runs first — while the outermost `@login_required` (line 168) wraps only the
module-level name and never dispatches.  So the effective handler runs the
access gate, then the body: it re-resolves the post (line 172, same id and
unchanged store, hence the gate's post), and on a valid submission
overwrites `title`, `subtitle`, `img_url`, `body` from the form, sets
`author = current_user` (line 184, i.e. `user_id` becomes the submitter's
id) and commits; `id` and `date` are not assigned. -/
def edit_post (db : DB) (session : Option Nat) (pid : Nat)
    (formValid : Bool) (form : PostForm) : RouteResponse × DB :=
  match admin_or_author db (current_user db session) pid with
  | Except.error AppError.NotFound => (RouteResponse.httpError 404, db)
  | Except.error _ => (RouteResponse.httpError 403, db)
  | Except.ok (post, u) =>
    if formValid then
      let post2 : BlogPost :=
        { id := post.id, user_id := u.id, title := form.title,
          subtitle := form.subtitle, date := post.date, body := form.body,
          img_url := form.img_url }
      match updatePost db post2 with
      | Except.ok db2 => (RouteResponse.redirect "show_post", db2)
      | Except.error _ => (RouteResponse.serverError, db)
    else
      (RouteResponse.render "make-post.html", db)

/-- The view registered for `/delete/<post_id>` (lines 191-198):
`admin_or_author` gate, then the post is deleted and the commit succeeds. -/
def delete_post (db : DB) (session : Option Nat) (pid : Nat) :
    RouteResponse × DB :=
  match admin_or_author db (current_user db session) pid with
  | Except.error AppError.NotFound => (RouteResponse.httpError 404, db)
  | Except.error _ => (RouteResponse.httpError 403, db)
  | Except.ok _ =>
    (RouteResponse.redirect "get_all_posts",
     { db with posts := db.posts.filter (fun p => p.id != pid) })

/-- Store-level removal of a `User` row.  No HTTP route performs this; it is
the operation declared by the schema: the `blog_posts` relationship carries
`cascade="all, delete"` (line 47), so deleting a user also deletes every
post whose `user_id` is that user's id. -/
def deleteUser (db : DB) (uid : Nat) : DB :=
  { users := db.users.filter (fun u => u.id != uid),
    posts := db.posts.filter (fun p => p.user_id != uid) }

/-- The process environment at startup. -/
structure Env where
  secretKey : Option String
  databaseUrl : Option String
deriving Repr, DecidableEq

/-- The application configuration assembled at startup. -/
structure AppConfig where
  secret_key : Option String
  sqlalchemy_database_uri : Option String
deriving Repr, DecidableEq

/-- Outcome of module import / startup (lines 20-34). -/
inductive StartupResult where
  | started (cfg : AppConfig)
  | failed
deriving Repr, DecidableEq

/-- Startup (lines 20-34): `SECRET_KEY` and `SQLALCHEMY_DATABASE_URI` are
read with `os.getenv`, which returns `None` when the variable is absent; no
check follows either read.  `db.init_app(app)` (line 34) raises at startup
when no database URI is configured (Flask-SQLAlchemy refuses a missing
URI), so a missing `DATABASE_URL` fails fast.  A missing `SECRET_KEY` is
stored as `None` and startup proceeds; Flask only raises later, at the
first attempt to use the session. -/
def startup (env : Env) : StartupResult :=
  let cfg : AppConfig :=
    { secret_key := env.secretKey, sqlalchemy_database_uri := env.databaseUrl }
  match cfg.sqlalchemy_database_uri with
  | none => StartupResult.failed
  | some _ => StartupResult.started cfg

/-- The referential-integrity invariant of section 3: every post's
`user_id` resolves to a stored user. -/
def ownersResolve (db : DB) : Prop :=
  ∀ p ∈ db.posts, ∃ u ∈ db.users, u.id = p.user_id

/-- One store-mutating operation of the application: a `register`
submission, a `/new-post` request (through the registered handler), an
`/edit-post` request, a `/delete` request, or the schema-level cascading
user removal.  `login` and `logout` never touch the store. -/
inductive Step : DB → DB → Prop where
  | stepRegister (db : DB) (hash : String → String) (s : Option Nat)
      (v : Bool) (un em pw : String) :
      Step db (register db hash s v un em pw).2
  | stepNewPost (db : DB) (req : Request) :
      Step db (add_new_post req db).2
  | stepEditPost (db : DB) (s : Option Nat) (pid : Nat) (v : Bool)
      (f : PostForm) :
      Step db (edit_post db s pid v f).2
  | stepDeletePost (db : DB) (s : Option Nat) (pid : Nat) :
      Step db (delete_post db s pid).2
  | stepDeleteUser (db : DB) (uid : Nat) :
      Step db (deleteUser db uid)

/-- States reachable from the empty store by the operations above. -/
inductive Reachable : DB → Prop where
  | init : Reachable ⟨[], []⟩
  | step (db db2 : DB) : Reachable db → Step db db2 → Reachable db2

/-- Concrete fixture: the identity with primary key 1. -/
def alice : User :=
  { id := 1, username := "alice", email := "a@x.com", password := "pw1#hash" }

/-- Concrete fixture: a second identity. -/
def bob : User :=
  { id := 2, username := "bob", email := "b@x.com", password := "pw2#hash" }

/-- Concrete fixture: a post owned by `bob`. -/
def helloPost : BlogPost :=
  { id := 1, user_id := 2, title := "Hello", subtitle := "sub",
    date := "April 05, 2024", body := "body", img_url := "img" }

/-- Concrete fixture store holding `alice`, `bob` and `helloPost`. -/
def dbW : DB := { users := [alice, bob], posts := [helloPost] }

/-- A concrete hash function standing in for the black-box
`generate_password_hash` in closed evaluations. -/
def hashW : String → String := fun s => s ++ "#hash"

/-- A concrete verifier standing in for the black-box
`check_password_hash` in closed evaluations. -/
def checkW : String → String → Bool := fun h pw => h == pw ++ "#hash"

/-- Concrete fixture form contents. -/
def formW : PostForm :=
  { title := "Fresh title", subtitle := "s2", body := "b2", img_url := "i2" }

/-- Concrete fixture request: `alice` submits a post whose title collides
with the stored post `Hello`. -/
def reqDup : Request :=
  { session := some 1, formValid := true,
    form := { title := "Hello", subtitle := "s", body := "b", img_url := "i" },
    today := "April 06, 2024" }

/-- Concrete fixture request: an unauthenticated caller submits a valid,
non-colliding new-post form. -/
def reqAnon : Request :=
  { session := none, formValid := true, form := formW,
    today := "April 06, 2024" }

/-- Concrete fixture: the store produced by one successful registration
from the empty store. -/
def dbReg : DB :=
  (register ⟨[], []⟩ hashW none true "alice" "a@x.com" "pw1").2

/-! ## Helper lemmas -/

/-- A `User` object never compares equal to the `int` literal `1`:
the admin test of line 77 is identically false. -/
theorem pyEq_obj_int (u : User) (n : Int) :
    pyEq (PyVal.obj u) (PyVal.int n) = false := rfl

/-- A user returned by `load_user` is a stored user with the looked-up id. -/
theorem load_user_mem {db : DB} {uid : Nat} {u : User}
    (h : load_user db uid = some u) : u ∈ db.users :=
  List.mem_of_find?_eq_some h

/-- The authenticated `current_user` is always a stored user. -/
theorem current_user_mem {db : DB} {s : Option Nat} {u : User}
    (h : current_user db s = some u) : u ∈ db.users := by
  cases s with
  | none => simp [current_user] at h
  | some uid => exact load_user_mem (by simpa [current_user] using h)

/-- A post resolved by `getPost` is stored and has the looked-up id. -/
theorem getPost_mem_id {db : DB} {pid : Nat} {p : BlogPost}
    (h : getPost db pid = some p) : p ∈ db.posts ∧ p.id = pid := by
  refine ⟨List.mem_of_find?_eq_some h, ?_⟩
  have := List.find?_some h
  simpa using this

/-- Once the post resolves, an unauthenticated caller is denied. -/
theorem admin_or_author_none_eq {db : DB} {pid : Nat} {post : BlogPost}
    (hpost : getPost db pid = some post) :
    admin_or_author db none pid = Except.error AppError.Forbidden := by
  simp [admin_or_author, hpost]

/-- Once the post resolves, the gate on an authenticated caller reduces to
the ownership test: the `current_user != 1` conjunct of line 77 is always
true, so the gate admits exactly the owner. -/
theorem admin_or_author_some_eq {db : DB} {pid : Nat} {post : BlogPost}
    (hpost : getPost db pid = some post) (u : User) :
    admin_or_author db (some u) pid =
      if u.id = post.user_id then Except.ok (post, u)
      else Except.error AppError.Forbidden := by
  by_cases hid : u.id = post.user_id <;>
    simp [admin_or_author, hpost, pyEq, hid]

/-- Inversion of a successful gate pass: the caller was authenticated as
the returned user, and the post resolved. -/
theorem admin_or_author_ok {db : DB} {cu : Option User} {pid : Nat}
    {post : BlogPost} {u : User}
    (h : admin_or_author db cu pid = Except.ok (post, u)) :
    cu = some u ∧ getPost db pid = some post := by
  cases hg : getPost db pid with
  | none => simp [admin_or_author, hg] at h
  | some post2 =>
    cases cu with
    | none => simp [admin_or_author, hg] at h
    | some u2 =>
      simp only [admin_or_author, hg] at h
      split at h
      · exact absurd h (by simp)
      · simp only [Except.ok.injEq, Prod.mk.injEq] at h
        exact ⟨by rw [h.2], by rw [h.1]⟩

/-! ## Claims -/

/-- C1: for every stored post and every caller, the edit and delete
operations are admitted exactly when the caller is authenticated and the
caller's id equals the post's owning user id; the admin bypass
(`current_user != 1`, comparing the identity object with the literal
integer `1`) never admits anyone; every other caller — authenticated
non-owner or unauthenticated — is denied with Forbidden (HTTP 403). -/
theorem access_gate_admits_only_owner (db : DB) (s : Option Nat) (pid : Nat)
    (post : BlogPost) (hpost : getPost db pid = some post) :
    ((∃ r, admin_or_author db (current_user db s) pid = Except.ok r) ↔
        (∃ u, current_user db s = some u ∧ u.id = post.user_id)) ∧
    (∀ u : User, pyEq (PyVal.obj u) (PyVal.int 1) = false) ∧
    ((¬ ∃ u, current_user db s = some u ∧ u.id = post.user_id) →
      ∀ v f, edit_post db s pid v f = (RouteResponse.httpError 403, db) ∧
        delete_post db s pid = (RouteResponse.httpError 403, db)) := by
  refine ⟨?_, fun u => rfl, ?_⟩
  · cases hcu : current_user db s with
    | none =>
      rw [admin_or_author_none_eq hpost]
      simp
    | some u =>
      rw [admin_or_author_some_eq hpost u]
      by_cases hid : u.id = post.user_id
      · rw [if_pos hid]
        exact ⟨fun _ => ⟨u, rfl, hid⟩, fun _ => ⟨(post, u), rfl⟩⟩
      · rw [if_neg hid]
        simp [hid]
  · intro hno v f
    cases hcu : current_user db s with
    | none =>
      have hgate : admin_or_author db (current_user db s) pid =
          Except.error AppError.Forbidden := by
        rw [hcu, admin_or_author_none_eq hpost]
      exact ⟨by simp [edit_post, hgate], by simp [delete_post, hgate]⟩
    | some u =>
      have hid : ¬ u.id = post.user_id := fun hid => hno ⟨u, hcu, hid⟩
      have hgate : admin_or_author db (current_user db s) pid =
          Except.error AppError.Forbidden := by
        rw [hcu, admin_or_author_some_eq hpost u, if_neg hid]
      exact ⟨by simp [edit_post, hgate], by simp [delete_post, hgate]⟩

/-- Closed instance of `access_gate_admits_only_owner`: the fixture store,
post 1 owned by user 2, caller authenticated as user 2. -/
theorem access_gate_admits_only_owner_witness :
    getPost dbW 1 = some helloPost ∧
    (((∃ r, admin_or_author dbW (current_user dbW (some 2)) 1 = Except.ok r) ↔
        (∃ u, current_user dbW (some 2) = some u ∧ u.id = helloPost.user_id)) ∧
      (∀ u : User, pyEq (PyVal.obj u) (PyVal.int 1) = false) ∧
      ((¬ ∃ u, current_user dbW (some 2) = some u ∧ u.id = helloPost.user_id) →
        ∀ v f, edit_post dbW (some 2) 1 v f = (RouteResponse.httpError 403, dbW) ∧
          delete_post dbW (some 2) 1 = (RouteResponse.httpError 403, dbW))) :=
  ⟨rfl, access_gate_admits_only_owner dbW (some 2) 1 helloPost rfl⟩

/-- C6: a post id absent from the content store makes `show_post`, edit and
delete all fail with NotFound (HTTP 404); in the gate the post is resolved
before the authentication check, so the 404 is returned for every session,
including the unauthenticated one. -/
theorem missing_post_not_found (db : DB) (s : Option Nat) (pid : Nat)
    (hpost : getPost db pid = none) :
    show_post db pid = RouteResponse.httpError 404 ∧
    (∀ v f, edit_post db s pid v f = (RouteResponse.httpError 404, db)) ∧
    delete_post db s pid = (RouteResponse.httpError 404, db) ∧
    admin_or_author db (current_user db s) pid =
      Except.error AppError.NotFound := by
  have hgate : admin_or_author db (current_user db s) pid =
      Except.error AppError.NotFound := by
    cases hcu : current_user db s <;> simp [admin_or_author, hpost]
  exact ⟨by simp [show_post, hpost],
    fun v f => by simp [edit_post, hgate],
    by simp [delete_post, hgate], hgate⟩

/-- Closed instance of `missing_post_not_found`: post id 99 is absent from
the fixture store and the caller is unauthenticated. -/
theorem missing_post_not_found_witness :
    getPost dbW 99 = none ∧
    (show_post dbW 99 = RouteResponse.httpError 404 ∧
      (∀ v f, edit_post dbW none 99 v f = (RouteResponse.httpError 404, dbW)) ∧
      delete_post dbW none 99 = (RouteResponse.httpError 404, dbW) ∧
      admin_or_author dbW (current_user dbW none) 99 =
        Except.error AppError.NotFound) :=
  ⟨rfl, missing_post_not_found dbW none 99 rfl⟩

/-- C3: registering with an email that already has an Identity fails — the
spec's `DuplicateEmail`, surfaced as a flash plus redirect away from the
form — logs nobody in, and leaves the store (in particular the set of
stored users) unchanged: no second Identity is created. -/
theorem register_duplicate_email_unchanged (db : DB) (hash : String → String)
    (s : Option Nat) (un email pw : String) (u0 : User)
    (hu : findUserByEmail db email = some u0) :
    register db hash s true un email pw =
      ({ response := RouteResponse.redirect "login", newSession := s,
         flash := some "Already Logged in" }, db) := by
  simp [register, hu]

/-- Closed instance of `register_duplicate_email_unchanged`: `alice`
already holds the email being registered. -/
theorem register_duplicate_email_unchanged_witness :
    findUserByEmail dbW "a@x.com" = some alice ∧
    register dbW hashW none true "carol" "a@x.com" "pw3" =
      ({ response := RouteResponse.redirect "login", newSession := none,
         flash := some "Already Logged in" }, dbW) :=
  ⟨rfl, register_duplicate_email_unchanged dbW hashW none "carol" "a@x.com"
    "pw3" alice rfl⟩

/-- C4: when the black-box hash verifier rejects the supplied password
against the stored hash, login fails — the spec's `WrongPassword`, surfaced
as an inline flash on the re-rendered form — and establishes no session;
moreover the outcome of `login` depends on the supplied plaintext only
through the verifier applied to the stored hash (no plaintext comparison),
so any plaintext the verifier rejects is treated identically. -/
theorem login_wrong_password_rejected (db : DB)
    (check : String → String → Bool) (s : Option Nat) (email pw : String)
    (u : User) (hu : findUserByEmail db email = some u)
    (hcheck : check u.password pw = false) :
    login db check s true email pw =
      { response := RouteResponse.render "login.html", newSession := s,
        flash := some "Incorrect Password!" } ∧
    (∀ pw2, check u.password pw2 = check u.password pw →
      login db check s true email pw2 = login db check s true email pw) := by
  constructor
  · simp [login, hu, hcheck]
  · intro pw2 h2
    rw [hcheck] at h2
    simp [login, hu, hcheck, h2]

/-- Closed instance of `login_wrong_password_rejected`: `alice` with a
wrong plaintext under the fixture verifier. -/
theorem login_wrong_password_rejected_witness :
    findUserByEmail dbW "a@x.com" = some alice ∧
    checkW alice.password "wrong" = false ∧
    (login dbW checkW none true "a@x.com" "wrong" =
        { response := RouteResponse.render "login.html", newSession := none,
          flash := some "Incorrect Password!" } ∧
      (∀ pw2, checkW alice.password pw2 = checkW alice.password "wrong" →
        login dbW checkW none true "a@x.com" pw2 =
          login dbW checkW none true "a@x.com" "wrong")) :=
  ⟨rfl, rfl,
    login_wrong_password_rejected dbW checkW none "a@x.com" "wrong" alice
      rfl rfl⟩

/-- C7: login with an email no Identity holds fails — the spec's
`UnknownEmail` — flashing a notice and redirecting to the registration
page, and establishes no authenticated session. -/
theorem login_unknown_email_redirects (db : DB)
    (check : String → String → Bool) (s : Option Nat) (email pw : String)
    (hu : findUserByEmail db email = none) :
    login db check s true email pw =
      { response := RouteResponse.redirect "register", newSession := s,
        flash := some "Email doesn\x27t exist !" } := by
  simp [login, hu]

/-- Closed instance of `login_unknown_email_redirects`: an email that was
never registered, unauthenticated caller. -/
theorem login_unknown_email_redirects_witness :
    findUserByEmail dbW "nobody@x.com" = none ∧
    login dbW checkW none true "nobody@x.com" "pw" =
      { response := RouteResponse.redirect "register", newSession := none,
        flash := some "Email doesn\x27t exist !" } :=
  ⟨rfl, login_unknown_email_redirects dbW checkW none "nobody@x.com" "pw" rfl⟩

/-- C5: a successful edit by a caller the gate admits overwrites exactly
the title, subtitle, image reference and body with the submitted form
values, sets the post's `user_id` to the submitting identity's id, and
keeps the post's `id` and `date`; every other post, and the users table,
are untouched. -/
theorem edit_post_success_frame (db : DB) (s : Option Nat) (pid : Nat)
    (f : PostForm) (post : BlogPost) (u : User)
    (hgate : admin_or_author db (current_user db s) pid =
      Except.ok (post, u))
    (hnocoll : db.posts.any
      (fun q => q.id != post.id && q.title == f.title) = false) :
    edit_post db s pid true f =
      (RouteResponse.redirect "show_post",
       { users := db.users,
         posts := db.posts.map (fun q =>
           if q.id == post.id then
             { id := post.id, user_id := u.id, title := f.title,
               subtitle := f.subtitle, date := post.date, body := f.body,
               img_url := f.img_url }
           else q) }) := by
  simp [edit_post, hgate, updatePost, hnocoll]

/-- Closed instance of `edit_post_success_frame`: `bob` edits the post he
owns with fresh, non-colliding form contents. -/
theorem edit_post_success_frame_witness :
    admin_or_author dbW (current_user dbW (some 2)) 1 =
      Except.ok (helloPost, bob) ∧
    dbW.posts.any
      (fun q => q.id != helloPost.id && q.title == formW.title) = false ∧
    edit_post dbW (some 2) 1 true formW =
      (RouteResponse.redirect "show_post",
       { users := dbW.users,
         posts := dbW.posts.map (fun q =>
           if q.id == helloPost.id then
             { id := helloPost.id, user_id := bob.id, title := formW.title,
               subtitle := formW.subtitle, date := helloPost.date,
               body := formW.body, img_url := formW.img_url }
           else q) }) :=
  ⟨rfl, rfl,
    edit_post_success_frame dbW (some 2) 1 formW helloPost bob rfl rfl⟩

/-- C8: creating a post whose title already exists in the content store, by
an authenticated caller with a valid submission, hits the storage engine's
unique-title constraint — the spec's `DuplicateTitle` — and the request
leaves the content store unchanged: no partial write, no new post. -/
theorem create_post_duplicate_title_unchanged (db : DB) (req : Request)
    (u : User) (hcu : current_user db req.session = some u)
    (hv : req.formValid = true)
    (hdup : db.posts.any (fun q => q.title == req.form.title) = true) :
    insertPost db
      { id := freshPostId db, user_id := u.id, title := req.form.title,
        subtitle := req.form.subtitle, date := req.today,
        body := req.form.body, img_url := req.form.img_url } =
      Except.error AppError.DuplicateTitle ∧
    add_new_post req db = (RouteResponse.serverError, db) := by
  constructor
  · simp [insertPost, hdup]
  · simp [add_new_post, hv, hcu, insertPost, hdup]

/-- Closed instance of `create_post_duplicate_title_unchanged`. -/
theorem create_post_duplicate_title_unchanged_witness :
    current_user dbW reqDup.session = some alice ∧
    reqDup.formValid = true ∧
    dbW.posts.any (fun q => q.title == reqDup.form.title) = true ∧
    (insertPost dbW
        { id := freshPostId dbW, user_id := alice.id,
          title := reqDup.form.title, subtitle := reqDup.form.subtitle,
          date := reqDup.today, body := reqDup.form.body,
          img_url := reqDup.form.img_url } =
        Except.error AppError.DuplicateTitle ∧
      add_new_post reqDup dbW = (RouteResponse.serverError, dbW)) :=
  ⟨rfl, rfl, rfl,
    create_post_duplicate_title_unchanged dbW reqDup alice rfl rfl rfl⟩

/-- C2 (code defect): at lines 149-151 `@login_required` stands above
`@app.route`, so `app.route` registers the bare `add_new_post` and the
authentication wrapper is applied only to the module-level name, which the
URL map never dispatches.  Consequently an unauthenticated valid submission
to `/new-post` reaches the handler body — it is not rejected by any
route-level gate — and dies in an unhandled-exception 500 at commit (the
anonymous user is not a mapped row), persisting nothing; had the wrapper
been registered, the same request would have been redirected to the login
view before any content was considered. -/
theorem new_post_route_gate_not_registered :
    dispatch (newPostRegistration []).1 "/new-post" = some add_new_post ∧
    add_new_post reqAnon dbW = (RouteResponse.serverError, dbW) ∧
    login_required add_new_post reqAnon dbW =
      (RouteResponse.redirect "login", dbW) :=
  ⟨rfl, rfl, rfl⟩

/-- C9 counterexample: with `DATABASE_URL` present but `SECRET_KEY` absent
from the environment, startup does not fail fast — the application starts
with a missing (`None`) secret key. -/
theorem startup_missing_secret_key_proceeds :
    startup { secretKey := none,
              databaseUrl := some "sqlite:///posts.db" } ≠
      StartupResult.failed ∧
    startup { secretKey := none, databaseUrl := some "sqlite:///posts.db" } =
      StartupResult.started
        { secret_key := none,
          sqlalchemy_database_uri := some "sqlite:///posts.db" } :=
  ⟨by decide, rfl⟩

/-- C9 (amended): startup fails fast exactly when the database connection
string is absent from the environment (the database layer refuses a missing
URI); the session-signing secret key is read with no check, so its absence
alone does not prevent startup — the application proceeds with a missing
secret key in its configuration. -/
theorem startup_fails_fast_iff_database_url_missing (env : Env) :
    (startup env = StartupResult.failed ↔ env.databaseUrl = none) ∧
    (env.databaseUrl = none ∨
      startup env = StartupResult.started
        { secret_key := env.secretKey,
          sqlalchemy_database_uri := env.databaseUrl }) := by
  cases h : env.databaseUrl <;> simp [startup, h]

/-- `register` never touches the content store. -/
theorem register_posts_eq (db : DB) (hash : String → String) (s : Option Nat)
    (v : Bool) (un em pw : String) :
    (register db hash s v un em pw).2.posts = db.posts := by
  cases v with
  | false => simp [register]
  | true => cases hfind : findUserByEmail db em <;> simp [register, hfind]

/-- `register` only ever adds a user: stored users stay stored. -/
theorem register_users_superset (db : DB) (hash : String → String)
    (s : Option Nat) (v : Bool) (un em pw : String) {u : User}
    (hu : u ∈ db.users) : u ∈ (register db hash s v un em pw).2.users := by
  cases v with
  | false => simpa [register] using hu
  | true =>
    cases hfind : findUserByEmail db em with
    | some _ => simpa [register, hfind] using hu
    | none => simp [register, hfind, hu]

/-- Inversion of a successful insert: the store gained exactly the new row. -/
theorem insertPost_ok_eq {db : DB} {p : BlogPost} {dbNew : DB}
    (h : insertPost db p = Except.ok dbNew) :
    dbNew = { db with posts := db.posts ++ [p] } := by
  simp only [insertPost] at h
  split at h
  · simp at h
  · simp only [Except.ok.injEq] at h
    exact h.symm

/-- Inversion of a successful update: exactly the row with the same id was
replaced. -/
theorem updatePost_ok_eq {db : DB} {p : BlogPost} {dbNew : DB}
    (h : updatePost db p = Except.ok dbNew) :
    dbNew = { db with
      posts := db.posts.map (fun q => if q.id == p.id then p else q) } := by
  simp only [updatePost] at h
  split at h
  · simp at h
  · simp only [Except.ok.injEq] at h
    exact h.symm

/-- The `/new-post` handler never touches the identity store. -/
theorem add_new_post_users_eq (req : Request) (db : DB) :
    (add_new_post req db).2.users = db.users := by
  cases hv : req.formValid with
  | false => simp [add_new_post, hv]
  | true =>
    cases hcu : current_user db req.session with
    | none => simp [add_new_post, hv, hcu]
    | some u =>
      cases hins : insertPost db
          { id := freshPostId db, user_id := u.id, title := req.form.title,
            subtitle := req.form.subtitle, date := req.today,
            body := req.form.body, img_url := req.form.img_url } with
      | error e => simp [add_new_post, hv, hcu, hins]
      | ok dbNew =>
        simp only [add_new_post, hv, hcu, hins]
        rw [insertPost_ok_eq hins]
        simp

/-- The `/edit-post` handler never touches the identity store. -/
theorem edit_post_users_eq (db : DB) (s : Option Nat) (pid : Nat) (v : Bool)
    (f : PostForm) : (edit_post db s pid v f).2.users = db.users := by
  cases hgate : admin_or_author db (current_user db s) pid with
  | error e => cases e <;> simp [edit_post, hgate]
  | ok r =>
    obtain ⟨post, u⟩ := r
    cases hv : v with
    | false => simp [edit_post, hgate, hv]
    | true =>
      cases hupd : updatePost db
          { id := post.id, user_id := u.id, title := f.title,
            subtitle := f.subtitle, date := post.date, body := f.body,
            img_url := f.img_url } with
      | error e => simp [edit_post, hgate, hv, hupd]
      | ok dbNew =>
        simp only [edit_post, hgate, hv, hupd]
        rw [updatePost_ok_eq hupd]
        simp

/-- The `/delete` handler never touches the identity store. -/
theorem delete_post_users_eq (db : DB) (s : Option Nat) (pid : Nat) :
    (delete_post db s pid).2.users = db.users := by
  cases hgate : admin_or_author db (current_user db s) pid with
  | error e => cases e <;> simp [delete_post, hgate]
  | ok r => simp [delete_post, hgate]

/-- Each store-mutating operation preserves referential integrity: it never
creates a post whose `user_id` fails to resolve to a stored user. -/
theorem step_preserves_ownersResolve {db db2 : DB} (h : Step db db2)
    (inv : ownersResolve db) : ownersResolve db2 := by
  cases h with
  | stepRegister hash s v un em pw =>
    intro p hp
    rw [register_posts_eq] at hp
    obtain ⟨u, hu, hid⟩ := inv p hp
    exact ⟨u, register_users_superset db hash s v un em pw hu, hid⟩
  | stepNewPost req =>
    intro p hp
    rw [show (∃ u ∈ (add_new_post req db).2.users, u.id = p.user_id) =
        (∃ u ∈ db.users, u.id = p.user_id) by
      rw [add_new_post_users_eq]]
    cases hv : req.formValid with
    | false =>
      simp only [add_new_post, hv] at hp
      exact inv p (by simpa using hp)
    | true =>
      cases hcu : current_user db req.session with
      | none =>
        simp only [add_new_post, hv, hcu] at hp
        exact inv p (by simpa using hp)
      | some u =>
        cases hins : insertPost db
            { id := freshPostId db, user_id := u.id, title := req.form.title,
              subtitle := req.form.subtitle, date := req.today,
              body := req.form.body, img_url := req.form.img_url } with
        | error e =>
          simp only [add_new_post, hv, hcu, hins] at hp
          exact inv p (by simpa using hp)
        | ok dbNew =>
          simp only [add_new_post, hv, hcu, hins] at hp
          rw [insertPost_ok_eq hins] at hp
          simp [List.mem_append, List.mem_singleton] at hp
          cases hp with
          | inl hpmem => exact inv p hpmem
          | inr hpnew => exact ⟨u, current_user_mem hcu, by rw [hpnew]⟩
  | stepEditPost s pid v f =>
    intro p hp
    rw [show (∃ u ∈ (edit_post db s pid v f).2.users, u.id = p.user_id) =
        (∃ u ∈ db.users, u.id = p.user_id) by
      rw [edit_post_users_eq]]
    cases hgate : admin_or_author db (current_user db s) pid with
    | error e =>
      cases e <;>
        · simp only [edit_post, hgate] at hp
          exact inv p (by simpa using hp)
    | ok r =>
      obtain ⟨post, u⟩ := r
      obtain ⟨hcu, -⟩ := admin_or_author_ok hgate
      cases hv : v with
      | false =>
        simp only [edit_post, hgate, hv] at hp
        exact inv p (by simpa using hp)
      | true =>
        cases hupd : updatePost db
            { id := post.id, user_id := u.id, title := f.title,
              subtitle := f.subtitle, date := post.date, body := f.body,
              img_url := f.img_url } with
        | error e =>
          simp only [edit_post, hgate, hv, hupd] at hp
          exact inv p (by simpa using hp)
        | ok dbNew =>
          simp only [edit_post, hgate, hv, hupd] at hp
          rw [updatePost_ok_eq hupd] at hp
          simp [List.mem_map] at hp
          obtain ⟨a, ha, hfa⟩ := hp
          by_cases hida : a.id = post.id
          · rw [if_pos hida] at hfa
            exact ⟨u, current_user_mem hcu, by rw [← hfa]⟩
          · rw [if_neg hida] at hfa
            exact hfa ▸ inv a ha
  | stepDeletePost s pid =>
    intro p hp
    rw [show (∃ u ∈ (delete_post db s pid).2.users, u.id = p.user_id) =
        (∃ u ∈ db.users, u.id = p.user_id) by
      rw [delete_post_users_eq]]
    cases hgate : admin_or_author db (current_user db s) pid with
    | error e =>
      cases e <;>
        · simp only [delete_post, hgate] at hp
          exact inv p (by simpa using hp)
    | ok r =>
      simp only [delete_post, hgate] at hp
      exact inv p (List.mem_of_mem_filter hp)
  | stepDeleteUser uid =>
    intro p hp
    simp only [deleteUser, List.mem_filter] at hp
    obtain ⟨hpmem, hpuid⟩ := hp
    obtain ⟨u, hu, hid⟩ := inv p hpmem
    refine ⟨u, ?_, hid⟩
    simp only [deleteUser, List.mem_filter]
    exact ⟨hu, by simpa [hid] using hpuid⟩

/-- C10: referential integrity of post ownership.  Every store-mutating
operation preserves the invariant that each post's `user_id` resolves to a
stored user; hence every reachable store state satisfies it (no orphaned
posts); and removing an Identity cascades per the schema: afterwards a post
is stored exactly when it was stored before and was not owned by the
removed identity. -/
theorem owners_resolve_invariant_and_cascade :
    (∀ db db2, Step db db2 → ownersResolve db → ownersResolve db2) ∧
    (∀ db, Reachable db → ownersResolve db) ∧
    (∀ db uid p, p ∈ (deleteUser db uid).posts ↔
      (p ∈ db.posts ∧ p.user_id ≠ uid)) := by
  refine ⟨fun db db2 h inv => step_preserves_ownersResolve h inv, ?_, ?_⟩
  · intro db h
    induction h with
    | init => intro p hp; simp at hp
    | step db db2 _ hstep ih => exact step_preserves_ownersResolve hstep ih
  · intro db uid p
    simp [deleteUser, List.mem_filter]

/-- Closed instance of `owners_resolve_invariant_and_cascade`: the store
reached by one registration satisfies the invariant, and cascading removal
of user 1 in the fixture store keeps exactly the posts user 1 did not
own. -/
theorem owners_resolve_invariant_and_cascade_witness :
    ownersResolve dbReg ∧
    (helloPost ∈ (deleteUser dbW 1).posts ↔
      (helloPost ∈ dbW.posts ∧ helloPost.user_id ≠ 1)) :=
  ⟨owners_resolve_invariant_and_cascade.2.1 dbReg
      (Reachable.step ⟨[], []⟩ dbReg Reachable.init
        (Step.stepRegister ⟨[], []⟩ hashW none true "alice" "a@x.com" "pw1")),
    owners_resolve_invariant_and_cascade.2.2 dbW 1 helloPost⟩

end Blog
